import Mathlib

/-!
Verification of the BeebLink AVR firmware packet protocol and forwarding
engine (src/firmware/beeblink.c, SendPacketHeaderAndForwardPayload.inl,
ReceivePacketHeader.inl).

The embedding is a shallow one: every transport is a pure state-passing
function (a sink consumes a byte and a state, a source produces a byte and
a new state), and each C function that performs I/O through the
`send_fn`/`recv_fn` callback pairs becomes a Lean function threading those
states explicitly.  Bytes are `Nat`s (the C code stores them in `uint8_t`,
so where a value's byte-boundedness matters it appears as a hypothesis or
a `% 256`).  Serial diagnostics and LED updates perform no I/O on either
transport and return no value, so they are omitted from the embedding;
the control flow that surrounds them is kept.
-/

/-- Error codes of the firmware (beeblink.c, the ERRORS table, lines
85-110).  `Error.None` is `Error_None`, success. -/
inductive Error where
  | None
  | NoBeebHandshake
  | Reset
  | USBEndpointStalled
  | USBDeviceDisconnected
  | USBBusSuspended
  | USBTimeout
  | USB
  deriving DecidableEq, Repr

/-- Packet header (beeblink.c, struct PacketHeader, lines 324-329).  The
field `t` is the `PacketType` union seen through `.all`: the raw type
byte.  `p` is the inline payload byte (meaningful when bit 7 of `t` is
clear), `p_size0 .. p_size3` are the four `uint8_t` entries of `p_size[]`
(meaningful when bit 7 of `t` is set). -/
structure PacketHeader where
  t : Nat
  p : Nat
  p_size0 : Nat
  p_size1 : Nat
  p_size2 : Nat
  p_size3 : Nat
  deriving DecidableEq, Repr

/-- Bitfield view `t.bits.c`: the low 7 bits of the type byte
(struct PacketTypeBits, `uint8_t c:7`, allocated at bits 0-6 by avr-gcc). -/
def tBitsC (t : Nat) : Nat := t % 128

/-- Bitfield view `t.bits.v`: bit 7 of the type byte
(struct PacketTypeBits, `uint8_t v:1`). -/
def tBitsV (t : Nat) : Bool := Nat.testBit t 7

/-- Building a type byte by writing both bitfields, as in
`ph.t.bits.v=1; ph.t.bits.c=RESPONSE_ERROR;`: `c` goes to bits 0-6
(truncated to 7 bits), `v` to bit 7. -/
def mkPacketType (c : Nat) (v : Bool) : Nat :=
  c % 128 + (if v then 128 else 0)

/-- Modelled from the spec: the request/response code constants come from
the generated header `.build/beeblink_constants.h`, which is not part of
the source tree.  The spec (section 6) only requires them to be distinct
reserved 7-bit codes; the concrete values below are representative stand-ins
and no theorem depends on anything but their identity and being < 128. -/
def REQUEST_AVR_PRESENCE : Nat := 0

/-- Modelled from the spec: see REQUEST_AVR_PRESENCE. -/
def REQUEST_AVR : Nat := 1

/-- Modelled from the spec: see REQUEST_AVR_PRESENCE. -/
def REQUEST_AVR_READY : Nat := 2

/-- Modelled from the spec: see REQUEST_AVR_PRESENCE. -/
def REQUEST_AVR_ERROR : Nat := 3

/-- Modelled from the spec: see REQUEST_AVR_PRESENCE. -/
def RESPONSE_ERROR : Nat := 4

/-- Modelled from the spec: see REQUEST_AVR_PRESENCE. -/
def RESPONSE_YES : Nat := 5

/-- Modelled from the spec: see REQUEST_AVR_PRESENCE. -/
def RESPONSE_NO : Nat := 6

/-- Modelled from the spec: the protocol version byte from the generated
constants header. -/
def AVR_PROTOCOL_VERSION : Nat := 1

/-- SetPayloadSize (beeblink.c lines 419-424): stores the four bytes of
`p_size`, least significant first; assignment to `uint8_t` truncates
each shifted value mod 256. -/
def SetPayloadSize (ph : PacketHeader) (p_size : Nat) : PacketHeader :=
  { ph with
    p_size0 := (p_size >>> 0) % 256
    p_size1 := (p_size >>> 8) % 256
    p_size2 := (p_size >>> 16) % 256
    p_size3 := (p_size >>> 24) % 256 }

/-- GetPayloadSize (beeblink.c lines 429-434), with the integer semantics
of the AVR target, where `int` is 16 bits wide.  The C expression is

  `p_size[0] | p_size[1]<<8 | (uint32_t)p_size[2]<<16 | (uint32_t)p_size[3]<<24`

`p_size[0] | p_size[1]<<8` is computed in 16-bit `int` (its bit pattern is
`lo` below), and is then converted to `uint32_t` for the remaining ors.
When bit 15 of `lo` is set the 16-bit value is negative, and the
conversion to `uint32_t` sign-extends: bits 16-31 of `loExt` all become 1
(the added constant is 0xFFFF0000).  Note the missing `(uint32_t)` cast on
`p_size[1]`, unlike `p_size[2]` and `p_size[3]`. -/
def GetPayloadSize (ph : PacketHeader) : Nat :=
  let lo := ph.p_size0 ||| ph.p_size1 <<< 8
  let loExt := if lo < 32768 then lo else lo + 4294901760
  loExt ||| ph.p_size2 <<< 16 ||| ph.p_size3 <<< 24

/-- Payload size as the spec words it (section 3): the 4-byte
little-endian unsigned value carried in the header.  This is the
spec-side definition, to be compared with GetPayloadSize. -/
def specPayloadSizeLE (ph : PacketHeader) : Nat :=
  ph.p_size0 + ph.p_size1 * 256 + ph.p_size2 * 65536 + ph.p_size3 * 16777216

/-- The header byte sequence as the wire format describes it (spec
section 6, and the header-emission part of
SendPacketHeaderAndForwardPayload): the type byte, then the inline byte
when bit 7 is clear, or the four length bytes LSB first when it is set. -/
def encodeHeader (h : PacketHeader) : List Nat :=
  h.t :: (if tBitsV h.t then [h.p_size0, h.p_size1, h.p_size2, h.p_size3] else [h.p])

/-- ReceivePacketHeader (beeblink.c lines 367-414).  `rcv` is the
`recv_fn`/`recv_context` pair: a pure byte source over state `ρ`.  The
result carries the error code, the header, and the final source state.
On an error return the C caller never reads the partially filled header,
so the model leaves the not-yet-received fields at their incoming values
(`ph` is the caller's uninitialized header variable). -/
def ReceivePacketHeader {ρ : Type} (rcv : ρ → Error × Nat × ρ)
    (receiving_from_beeb : Bool) (ph : PacketHeader) (r : ρ) :
    Error × PacketHeader × ρ :=
  let rt := rcv r
  if rt.1 ≠ Error.None then
    if receiving_from_beeb ∧ rt.1 = Error.NoBeebHandshake then
      (Error.Reset, ph, rt.2.2)
    else
      (rt.1, ph, rt.2.2)
  else
    let ph1 := { ph with t := rt.2.1 }
    if receiving_from_beeb ∧ tBitsC ph1.t = REQUEST_AVR_PRESENCE then
      (Error.None, ph1, rt.2.2)
    else if tBitsV ph1.t then
      let r0 := rcv rt.2.2
      if r0.1 ≠ Error.None then (r0.1, ph1, r0.2.2) else
      let ph2 := { ph1 with p_size0 := r0.2.1 }
      let r1 := rcv r0.2.2
      if r1.1 ≠ Error.None then (r1.1, ph2, r1.2.2) else
      let ph3 := { ph2 with p_size1 := r1.2.1 }
      let r2 := rcv r1.2.2
      if r2.1 ≠ Error.None then (r2.1, ph3, r2.2.2) else
      let ph4 := { ph3 with p_size2 := r2.2.1 }
      let r3 := rcv r2.2.2
      if r3.1 ≠ Error.None then (r3.1, ph4, r3.2.2) else
      (Error.None, { ph4 with p_size3 := r3.2.1 }, r3.2.2)
    else
      let rp := rcv rt.2.2
      if rp.1 ≠ Error.None then (rp.1, ph1, rp.2.2) else
      (Error.None, { ph1 with p := rp.2.1 }, rp.2.2)

/-- The `for(uint8_t i=0;i<4;++i)` loop of SendPacketHeaderAndForwardPayload
(beeblink.c lines 494-499) that sends the four length bytes, LSB first,
with the early error return, unrolled. -/
def sendPSize {σ : Type} (snd : Nat → σ → Error × σ) (ph : PacketHeader)
    (s : σ) : Error × σ :=
  let r0 := snd ph.p_size0 s
  if r0.1 ≠ Error.None then r0 else
  let r1 := snd ph.p_size1 r0.2
  if r1.1 ≠ Error.None then r1 else
  let r2 := snd ph.p_size2 r1.2
  if r2.1 ≠ Error.None then r2 else
  snd ph.p_size3 r2.2

/-- The payload loop of SendPacketHeaderAndForwardPayload (beeblink.c
lines 516-576): receive one byte from the source, abort on error, send it
to the sink, abort on error, repeat.  Recursion is on the number of
remaining iterations; the loop counter `i` of the C code is used only for
LED flicker and serial diagnostics, which perform no transport I/O and
are omitted. -/
def forwardLoop {σ ρ : Type} (snd : Nat → σ → Error × σ)
    (rcv : ρ → Error × Nat × ρ) : Nat → σ → ρ → Error × σ × ρ
  | 0, s, r => (Error.None, s, r)
  | Nat.succ n, s, r =>
    let rr := rcv r
    if rr.1 ≠ Error.None then (rr.1, s, rr.2.2) else
    let sr := snd rr.2.1 s
    if sr.1 ≠ Error.None then (sr.1, sr.2, rr.2.2) else
    forwardLoop snd rcv n sr.2 rr.2.2

/-- SendPacketHeaderAndForwardPayload (beeblink.c lines 479-585).  `snd`
is the `send_fn`/`send_context` pair over sink state `σ`, `rcv` the
`recv_fn`/`recv_context` pair over source state `ρ`.  The `request_ph`
parameter of the C function feeds only `IsVerboseRequest` (serial
diagnostics), and `led_constant`/`led_flicker` only the LEDs; neither
touches a transport, so they are omitted. -/
def SendPacketHeaderAndForwardPayload {σ ρ : Type} (response_ph : PacketHeader)
    (snd : Nat → σ → Error × σ) (rcv : ρ → Error × Nat × ρ)
    (s : σ) (r : ρ) : Error × σ × ρ :=
  let e0 := snd response_ph.t s
  if e0.1 ≠ Error.None then (e0.1, e0.2, r) else
  if tBitsV response_ph.t then
    let e1 := sendPSize snd response_ph e0.2
    if e1.1 ≠ Error.None then (e1.1, e1.2, r) else
    forwardLoop snd rcv (GetPayloadSize response_ph) e1.2 r
  else
    let e2 := snd response_ph.p e0.2
    (e2.1, e2.2, r)

/-- The body of SendPacketHeaderAndForwardPayload.inl (the generated
per-direction variant).  It differs from beeblink.c only inside the
variable-size branch: when `verbose` is false one plain relay loop runs;
when `verbose` is true the relay is split into three consecutive loops
(`0..v_end`, `v_end..v_restart`, `v_restart..p_size`) so that byte-level
tracing is emitted only for the first and last `MAX_NUM_DUMP_BYTES/2`
bytes (50/2 = 25).  The tracing itself performs no transport I/O and is
omitted; the three-loop structure is kept.  `verbose` is
`IsVerboseRequest(request_ph) && serial_is_enabled()` in the source. -/
def SendPacketHeaderAndForwardPayloadInl {σ ρ : Type} (verbose : Bool)
    (response_ph : PacketHeader)
    (snd : Nat → σ → Error × σ) (rcv : ρ → Error × Nat × ρ)
    (s : σ) (r : ρ) : Error × σ × ρ :=
  let e0 := snd response_ph.t s
  if e0.1 ≠ Error.None then (e0.1, e0.2, r) else
  if tBitsV response_ph.t then
    let e1 := sendPSize snd response_ph e0.2
    if e1.1 ≠ Error.None then (e1.1, e1.2, r) else
    let p_size := GetPayloadSize response_ph
    if !verbose then
      forwardLoop snd rcv p_size e1.2 r
    else
      let v_end := if p_size ≤ 50 then p_size else 25
      let v_restart := if p_size ≤ 50 then p_size else p_size - 25
      let o1 := forwardLoop snd rcv v_end e1.2 r
      if o1.1 ≠ Error.None then o1 else
      let o2 := forwardLoop snd rcv (v_restart - v_end) o1.2.1 o1.2.2
      if o2.1 ≠ Error.None then o2 else
      forwardLoop snd rcv (p_size - v_restart) o2.2.1 o2.2.2
  else
    let e2 := snd response_ph.p e0.2
    (e2.1, e2.2, r)

/-- ReceiveErrorByteContext (beeblink.c lines 601-606).  `text` is the
byte string of the null-terminated message, terminator excluded; the C
`text_ps` pointer reads byte `text.length` as the 0 terminator, which
`List.getD _ 0` reproduces. -/
structure ReceiveErrorByteContext where
  code : Nat
  text : List Nat
  index : Nat
  deriving DecidableEq, Repr

/-- ReceiveErrorByte (beeblink.c lines 608-623): the lazy error-payload
source.  Index 0 yields the 0x00 marker, index 1 the error code, index
i ≥ 2 byte i-2 of the null-terminated message. -/
def ReceiveErrorByte (ctx : ReceiveErrorByteContext) :
    Error × Nat × ReceiveErrorByteContext :=
  let v :=
    if ctx.index = 0 then 0
    else if ctx.index = 1 then ctx.code
    else ctx.text.getD (ctx.index - 2) 0
  (Error.None, v, { ctx with index := ctx.index + 1 })

/-- Byte string of PSTR("Bad REQUEST_AVR payload size") (beeblink.c line
669), terminator excluded; 28 bytes. -/
def badPayloadSizeMsg : List Nat :=
  [66, 97, 100, 32, 82, 69, 81, 85, 69, 83, 84, 95, 65, 86, 82, 32,
   112, 97, 121, 108, 111, 97, 100, 32, 115, 105, 122, 101]

/-- Byte string of PSTR("Bad REQUEST_AVR payload") (beeblink.c line 682),
terminator excluded; 23 bytes. -/
def badPayloadMsg : List Nat :=
  [66, 97, 100, 32, 82, 69, 81, 85, 69, 83, 84, 95, 65, 86, 82, 32,
   112, 97, 121, 108, 111, 97, 100]

/-- Byte string of PSTR("As requested") (beeblink.c line 728), terminator
excluded; 12 bytes. -/
def asRequestedMsg : List Nat :=
  [65, 115, 32, 114, 101, 113, 117, 101, 115, 116, 101, 100]

/-- SendErrorToBeeb (beeblink.c lines 628-652): builds a variable-sized
RESPONSE_ERROR header, declares payload size `1 + 1 + strlen(text) + 1`,
and forwards the synthesized payload from ReceiveErrorByte to the
microcomputer sink.  The local header's `p` member is never written nor
read (the header is variable-sized), so it is 0 here; the serial logging
is omitted.  The result keeps the error code and the sink state; the
ReceiveErrorByte context is local to the call, as in the C code. -/
def SendErrorToBeeb {σ : Type} (code : Nat) (text : List Nat)
    (snd : Nat → σ → Error × σ) (s : σ) : Error × σ :=
  let ph := SetPayloadSize
    { t := mkPacketType RESPONSE_ERROR true, p := 0,
      p_size0 := 0, p_size1 := 0, p_size2 := 0, p_size3 := 0 }
    (1 + 1 + text.length + 1)
  let o := SendPacketHeaderAndForwardPayload ph snd ReceiveErrorByte s
    { code := code, text := text, index := 0 }
  (o.1, o.2.1)

/-- Stand-in for the NULL `recv_fn` passed by HandleRequestAVR for
fixed-size responses (beeblink.c line 723): the payload is the header's
inline byte, so the forwarding engine never invokes the source. -/
def nullRecv (u : Unit) : Error × Nat × Unit := (Error.USB, 0, u)

/-- The `switch(p)` dispatch of HandleRequestAVR (beeblink.c lines
680-729) on the sub-opcode byte `p`.  `ready` is the constant 1 in the
source (the negative-readiness hook is commented out), so the ready query
answers RESPONSE_YES with the protocol version as inline byte; the
response header is built with a designated initializer, so its `p_size`
members are zero-initialized. -/
def AVRSubRequest {σ ρ : Type} (p : Nat) (snd : Nat → σ → Error × σ)
    (s : σ) (r : ρ) : Error × σ × ρ :=
  if p = REQUEST_AVR_READY then
    let ready := true
    let ph : PacketHeader :=
      { t := mkPacketType (if ready then RESPONSE_YES else RESPONSE_NO) false,
        p := AVR_PROTOCOL_VERSION,
        p_size0 := 0, p_size1 := 0, p_size2 := 0, p_size3 := 0 }
    let o := SendPacketHeaderAndForwardPayload ph snd nullRecv s ()
    (o.1, o.2.1, r)
  else if p = REQUEST_AVR_ERROR then
    let o := SendErrorToBeeb 255 asRequestedMsg snd s
    (o.1, o.2, r)
  else
    let o := SendErrorToBeeb 255 badPayloadMsg snd s
    (o.1, o.2, r)

/-- HandleRequestAVR (beeblink.c lines 657-730).  `snd` is SendByteToBeeb,
`rcv` is ReceiveByteFromBeeb (used only to fetch the sub-opcode of a
1-byte variable payload).  A variable payload whose declared size is not
1 is answered immediately with the synthesized "Bad REQUEST_AVR payload
size" error packet, without touching the source. -/
def HandleRequestAVR {σ ρ : Type} (request : PacketHeader)
    (snd : Nat → σ → Error × σ) (rcv : ρ → Error × Nat × ρ)
    (s : σ) (r : ρ) : Error × σ × ρ :=
  if tBitsV request.t then
    if GetPayloadSize request ≠ 1 then
      let o := SendErrorToBeeb 255 badPayloadSizeMsg snd s
      (o.1, o.2, r)
    else
      let rb := rcv r
      if rb.1 ≠ Error.None then (rb.1, s, rb.2.2) else
      AVRSubRequest rb.2.1 snd s rb.2.2
  else
    AVRSubRequest request.p snd s r

/-- The two endpoint-stall operations of the session layer
(StallDeviceToHost, beeblink.c lines 748-752, and StallHostToDevice,
lines 757-759).  The model records which direction was stalled; each C
function issues one Endpoint_StallTransaction on its direction. -/
inductive StallAction where
  | deviceToHost
  | hostToDevice
  deriving DecidableEq, Repr

/-- Result of one MainLoop iteration: the final states of the four
byte-transport ends and the list of endpoint stalls issued, in order. -/
structure MainLoopResult (ρB σB ρH σH : Type) where
  beebIn : ρB
  beebOut : σB
  hostIn : ρH
  hostOut : σH
  stalls : List StallAction
  deriving Repr

/-- MainLoop (beeblink.c lines 764-868), one iteration of the session
state machine.  `rcvB`/`sndB` are ReceiveByteFromBeeb/SendByteToBeeb over
states `ρB`/`σB`; `rcvH`/`sndH` are ReceiveByteFromHost/SendByteToHost
over `ρH`/`σH`.  `request0` and `response0` model the two uninitialized
local `PacketHeader` variables.  LED updates, serial logging, the
`g_last_request_type` diagnostic memo, endpoint selection and the
device-to-host buffer flush (`Endpoint_ClearIN`) do not move protocol
bytes and are omitted. -/
def MainLoop {ρB σB ρH σH : Type}
    (rcvB : ρB → Error × Nat × ρB) (sndB : Nat → σB → Error × σB)
    (rcvH : ρH → Error × Nat × ρH) (sndH : Nat → σH → Error × σH)
    (request0 response0 : PacketHeader)
    (bIn : ρB) (bOut : σB) (hIn : ρH) (hOut : σH) :
    MainLoopResult ρB σB ρH σH :=
  let rrq := ReceivePacketHeader rcvB true request0 bIn
  if rrq.1 ≠ Error.None then
    if rrq.1 = Error.Reset then
      { beebIn := rrq.2.2, beebOut := bOut, hostIn := hIn, hostOut := hOut,
        stalls := [] }
    else
      { beebIn := rrq.2.2, beebOut := bOut, hostIn := hIn, hostOut := hOut,
        stalls := [StallAction.deviceToHost] }
  else
    let request := rrq.2.1
    let bIn1 := rrq.2.2
    if tBitsC request.t = REQUEST_AVR_PRESENCE then
      { beebIn := bIn1, beebOut := bOut, hostIn := hIn, hostOut := hOut,
        stalls := [] }
    else if tBitsC request.t = REQUEST_AVR then
      let hr := HandleRequestAVR request sndB rcvB bOut bIn1
      { beebIn := hr.2.2, beebOut := hr.2.1, hostIn := hIn, hostOut := hOut,
        stalls := [] }
    else
      let fwd1 := SendPacketHeaderAndForwardPayload request sndH rcvB hOut bIn1
      if fwd1.1 ≠ Error.None then
        { beebIn := fwd1.2.2, beebOut := bOut, hostIn := hIn,
          hostOut := fwd1.2.1, stalls := [StallAction.deviceToHost] }
      else
        let rrs := ReceivePacketHeader rcvH false response0 hIn
        if rrs.1 ≠ Error.None then
          { beebIn := fwd1.2.2, beebOut := bOut, hostIn := rrs.2.2,
            hostOut := fwd1.2.1, stalls := [StallAction.hostToDevice] }
        else
          let response := rrs.2.1
          let fwd2 := SendPacketHeaderAndForwardPayload response sndB rcvH
            bOut rrs.2.2
          if fwd2.1 ≠ Error.None then
            { beebIn := fwd1.2.2, beebOut := fwd2.2.1, hostIn := fwd2.2.2,
              hostOut := fwd1.2.1, stalls := [StallAction.hostToDevice] }
          else
            { beebIn := fwd1.2.2, beebOut := fwd2.2.1, hostIn := fwd2.2.2,
              hostOut := fwd1.2.1, stalls := [] }

/-- The possible results of LUFA's Endpoint_WaitUntilReady, plus `Other`
for the defensive `default` arm of the switch in WaitUntilEndpointReady. -/
inductive ReadyWait where
  | NoError
  | EndpointStalled
  | DeviceDisconnected
  | BusSuspended
  | Timeout
  | Other
  deriving DecidableEq, Repr

/-- The `switch(g_last_WUR_result)` of WaitUntilEndpointReady (beeblink.c
lines 256-275), mapping a LUFA wait result to a firmware error kind. -/
def ReadyWaitError : ReadyWait → Error
  | ReadyWait.NoError => Error.None
  | ReadyWait.EndpointStalled => Error.USBEndpointStalled
  | ReadyWait.DeviceDisconnected => Error.USBDeviceDisconnected
  | ReadyWait.BusSuspended => Error.USBBusSuspended
  | ReadyWait.Timeout => Error.USBTimeout
  | ReadyWait.Other => Error.USB

/-- WaitUntilEndpointReady (beeblink.c lines 251-276).  The argument is
the sequence of successive Endpoint_WaitUntilReady results the hardware
will produce.  The `do { } while(result==Timeout)` loop keeps re-waiting
as long as the result is Timeout; `none` models the loop still spinning
when every supplied result was Timeout (the C function has not returned).
Once a non-Timeout result arrives, the switch maps it to an error kind. -/
def WaitUntilEndpointReady : List ReadyWait → Option Error
  | [] => none
  | w :: ws =>
    if w = ReadyWait.Timeout then WaitUntilEndpointReady ws
    else some (ReadyWaitError w)

/-- A source that delivers the bytes of a list, then fails with Error.USB
(a host-link fault) when exhausted. -/
def listRecv : List Nat → Error × Nat × List Nat
  | [] => (Error.USB, 0, [])
  | b :: bs => (Error.None, b, bs)

/-- A sink that always succeeds and appends each sent byte to a trace. -/
def listSend (x : Nat) (tr : List Nat) : Error × List Nat :=
  (Error.None, tr ++ [x])

/-- An always-succeeding source producing byte `f i` at the i-th request;
the state is the number of requests made so far. -/
def funRecv (f : Nat → Nat) (i : Nat) : Error × Nat × Nat :=
  (Error.None, f i, i + 1)

/-- A source producing byte `f i` at the i-th request, except that request
number `k` fails with error `e`; the state counts requests made. -/
def errRecv (f : Nat → Nat) (k : Nat) (e : Error) (i : Nat) :
    Error × Nat × Nat :=
  if i = k then (e, 0, i + 1) else (Error.None, f i, i + 1)

/-- The bytes an always-succeeding indexed source delivers for requests
`j, j+1, ..., j+n-1`; used to state forwarding traces. -/
def srcBytes (f : Nat → Nat) : Nat → Nat → List Nat
  | _, 0 => []
  | j, Nat.succ m => f j :: srcBytes f (j + 1) m

/-- An all-zero header, standing in for a zero-initialized or irrelevant
initial header value in concrete runs. -/
def phZero : PacketHeader :=
  { t := 0, p := 0, p_size0 := 0, p_size1 := 0, p_size2 := 0, p_size3 := 0 }

/-!
Helper lemmas, shared by the claim theorems below.
-/

theorem srcBytes_length (f : Nat → Nat) : ∀ (n j : Nat), (srcBytes f j n).length = n := by
  intro n
  induction n with
  | zero => intro j; rfl
  | succ n ih => intro j; simp [srcBytes, ih]

theorem forwardLoop_funRecv (f : Nat → Nat) :
    ∀ (n j : Nat) (tr : List Nat),
    forwardLoop listSend (funRecv f) n tr j =
      (Error.None, tr ++ srcBytes f j n, j + n) := by
  intro n
  induction n with
  | zero => intro j tr; simp [forwardLoop, srcBytes]
  | succ n ih =>
    intro j tr
    simp [forwardLoop, funRecv, listSend, srcBytes, ih]
    omega

theorem forwardLoop_errRecv (f : Nat → Nat) (k : Nat) (e : Error)
    (he : e ≠ Error.None) :
    ∀ (n j : Nat) (tr : List Nat), j ≤ k → k < j + n →
    forwardLoop listSend (errRecv f k e) n tr j =
      (e, tr ++ srcBytes f j (k - j), k + 1) := by
  intro n
  induction n with
  | zero => intro j tr hjk hkn; exfalso; omega
  | succ n ih =>
    intro j tr hjk hkn
    by_cases hj : j = k
    · subst hj
      simp [forwardLoop, errRecv, he, srcBytes]
    · have hlt : j < k := by omega
      have hkj : k - j = (k - (j + 1)) + 1 := by omega
      simp only [forwardLoop, errRecv, if_neg hj]
      simp only [ne_eq, not_true_eq_false, reduceCtorEq, not_false_eq_true,
        if_true, if_false, ite_false, ite_true, listSend]
      rw [ih (j + 1) (tr ++ [f j]) (by omega) (by omega), hkj]
      simp [srcBytes]

theorem forwardLoop_add {σ ρ : Type} (snd : Nat → σ → Error × σ)
    (rcv : ρ → Error × Nat × ρ) (a : Nat) :
    ∀ (b : Nat) (s : σ) (r : ρ),
    forwardLoop snd rcv (a + b) s r =
      (let o := forwardLoop snd rcv a s r
       if o.1 ≠ Error.None then o
       else forwardLoop snd rcv b o.2.1 o.2.2) := by
  induction a with
  | zero => intro b s r; simp [forwardLoop]
  | succ a ih =>
    intro b s r
    have hsa : a + 1 + b = (a + b) + 1 := by omega
    rw [hsa]
    simp only [forwardLoop]
    by_cases h1 : (rcv r).1 = Error.None
    · simp only [h1, ne_eq, not_true_eq_false, if_false, ite_false]
      by_cases h2 : (snd (rcv r).2.1 s).1 = Error.None
      · simp only [h2, ne_eq, not_true_eq_false, if_false, ite_false]
        exact ih b _ _
      · simp [h2]
    · simp [h1]

theorem lor_shift_add {a : Nat} (b k : Nat) (h : a < 2 ^ k) :
    a ||| b <<< k = a + b * 2 ^ k := by
  rw [Nat.shiftLeft_eq, Nat.lor_comm, Nat.mul_comm b (2 ^ k),
    ← Nat.mul_add_lt_is_or h b]
  omega

theorem left_le_lor (x y : Nat) : x ≤ x ||| y :=
  Nat.le_of_testBit fun i hi => by simp [hi]

theorem specLE_le_getPayloadSize (ph : PacketHeader)
    (h0 : ph.p_size0 < 256) (h1 : ph.p_size1 < 256)
    (h2 : ph.p_size2 < 256) (h3 : ph.p_size3 < 256) :
    specPayloadSizeLE ph ≤ GetPayloadSize ph := by
  have e8 : (2 : Nat) ^ 8 = 256 := by norm_num
  have e16 : (2 : Nat) ^ 16 = 65536 := by norm_num
  have e24 : (2 : Nat) ^ 24 = 16777216 := by norm_num
  have hlo : ph.p_size0 ||| ph.p_size1 <<< 8 = ph.p_size0 + ph.p_size1 * 256 := by
    rw [lor_shift_add ph.p_size1 8 (by omega), e8]
  unfold specPayloadSizeLE GetPayloadSize
  simp only [hlo]
  by_cases hc : ph.p_size0 + ph.p_size1 * 256 < 32768
  · simp only [if_pos hc]
    have ha : ph.p_size0 + ph.p_size1 * 256 ||| ph.p_size2 <<< 16 =
        ph.p_size0 + ph.p_size1 * 256 + ph.p_size2 * 65536 := by
      rw [lor_shift_add ph.p_size2 16 (by omega), e16]
    rw [ha]
    have hb : ph.p_size0 + ph.p_size1 * 256 + ph.p_size2 * 65536 |||
        ph.p_size3 <<< 24 =
        ph.p_size0 + ph.p_size1 * 256 + ph.p_size2 * 65536 +
          ph.p_size3 * 16777216 := by
      rw [lor_shift_add ph.p_size3 24 (by omega), e24]
    rw [hb]
  · simp only [if_neg hc]
    have hstep : ph.p_size0 + ph.p_size1 * 256 + ph.p_size2 * 65536 +
        ph.p_size3 * 16777216 ≤
        ph.p_size0 + ph.p_size1 * 256 + 4294901760 := by omega
    calc ph.p_size0 + ph.p_size1 * 256 + ph.p_size2 * 65536 +
        ph.p_size3 * 16777216
        ≤ ph.p_size0 + ph.p_size1 * 256 + 4294901760 := hstep
      _ ≤ (ph.p_size0 + ph.p_size1 * 256 + 4294901760) |||
          ph.p_size2 <<< 16 := left_le_lor _ _
      _ ≤ ((ph.p_size0 + ph.p_size1 * 256 + 4294901760) |||
          ph.p_size2 <<< 16) ||| ph.p_size3 <<< 24 := left_le_lor _ _

theorem spfp_success_trace (ph : PacketHeader) (f : Nat → Nat)
    (hv : tBitsV ph.t = true) :
    SendPacketHeaderAndForwardPayload ph listSend (funRecv f) [] 0 =
      (Error.None, encodeHeader ph ++ srcBytes f 0 (GetPayloadSize ph),
       GetPayloadSize ph) := by
  simp [SendPacketHeaderAndForwardPayload, listSend, sendPSize, hv,
    forwardLoop_funRecv, encodeHeader]

/-!
Claim theorems.
-/

/-- C1.  The claim states that for a variable-sized response header with
declared payload size n (the 4-byte little-endian value, here n = 32768,
length bytes 00 80 00 00) and all-succeeding transports, the sink
receives the type byte, the 4 length bytes and then exactly n payload
bytes.  The code diverges: because GetPayloadSize misreads the size
(16-bit int sign extension, see claim C4), the forwarding loop relays
4294934528 payload bytes, not 32768, so the sink trace has length
5 + 4294934528 instead of 5 + 32768. -/
theorem claim1_forward_count_bug :
    specPayloadSizeLE
      { t := 128, p := 0, p_size0 := 0, p_size1 := 128, p_size2 := 0,
        p_size3 := 0 } = 32768 ∧
    (SendPacketHeaderAndForwardPayload
      { t := 128, p := 0, p_size0 := 0, p_size1 := 128, p_size2 := 0,
        p_size3 := 0 }
      listSend (funRecv (fun i => i % 256)) [] 0).1 = Error.None ∧
    ((SendPacketHeaderAndForwardPayload
      { t := 128, p := 0, p_size0 := 0, p_size1 := 128, p_size2 := 0,
        p_size3 := 0 }
      listSend (funRecv (fun i => i % 256)) [] 0).2.1).length =
      5 + 4294934528 ∧
    (5 : Nat) + 4294934528 ≠ 5 + 32768 := by
  have ht := spfp_success_trace
    { t := 128, p := 0, p_size0 := 0, p_size1 := 128, p_size2 := 0,
      p_size3 := 0 } (fun i => i % 256) (by decide)
  have hg : GetPayloadSize
      { t := 128, p := 0, p_size0 := 0, p_size1 := 128, p_size2 := 0,
        p_size3 := 0 } = 4294934528 := by decide
  have he : encodeHeader
      { t := 128, p := 0, p_size0 := 0, p_size1 := 128, p_size2 := 0,
        p_size3 := 0 } = [128, 0, 128, 0, 0] := by decide
  refine ⟨by decide, ?_, ?_, by decide⟩
  · rw [ht]
  · rw [ht, he, List.length_append, srcBytes_length, hg]
    rfl

/-- C2.  Codec round trip: decoding, via ReceivePacketHeader (on the host
side, where no presence-probe shortcut applies), the exact byte sequence
the encoder emits for a header h -- the type byte, then the inline byte
if bit 7 is clear or the 4 length bytes LSB-first if set -- succeeds,
consumes exactly those bytes, and reproduces h's code, flag, and inline
byte or length bytes. -/
theorem claim2_header_roundtrip (h ph0 : PacketHeader) :
    (ReceivePacketHeader listRecv false ph0 (encodeHeader h)).1 =
      Error.None ∧
    tBitsC (ReceivePacketHeader listRecv false ph0 (encodeHeader h)).2.1.t =
      tBitsC h.t ∧
    tBitsV (ReceivePacketHeader listRecv false ph0 (encodeHeader h)).2.1.t =
      tBitsV h.t ∧
    (if tBitsV h.t then
      (ReceivePacketHeader listRecv false ph0 (encodeHeader h)).2.1.p_size0 =
          h.p_size0 ∧
      (ReceivePacketHeader listRecv false ph0 (encodeHeader h)).2.1.p_size1 =
          h.p_size1 ∧
      (ReceivePacketHeader listRecv false ph0 (encodeHeader h)).2.1.p_size2 =
          h.p_size2 ∧
      (ReceivePacketHeader listRecv false ph0 (encodeHeader h)).2.1.p_size3 =
          h.p_size3
    else
      (ReceivePacketHeader listRecv false ph0 (encodeHeader h)).2.1.p = h.p) ∧
    (ReceivePacketHeader listRecv false ph0 (encodeHeader h)).2.2 = [] := by
  by_cases hv : tBitsV h.t
  · simp [ReceivePacketHeader, encodeHeader, listRecv, hv]
  · simp [ReceivePacketHeader, encodeHeader, listRecv, hv]

/-- C3.  If, while forwarding a variable-sized payload whose declared
(little-endian) size is n, the source fails with error e at payload byte
k < n, the engine returns e; at that point the sink has received exactly
the type byte, the 4 length bytes and payload bytes 0..k-1, and exactly
k+1 source requests were made (the failing one included), none skipped or
substituted. -/
theorem claim3_error_mid_payload (ph : PacketHeader) (f : Nat → Nat)
    (k : Nat) (e : Error) (hv : tBitsV ph.t = true)
    (h0 : ph.p_size0 < 256) (h1 : ph.p_size1 < 256)
    (h2 : ph.p_size2 < 256) (h3 : ph.p_size3 < 256)
    (hk : k < specPayloadSizeLE ph) (he : e ≠ Error.None) :
    SendPacketHeaderAndForwardPayload ph listSend (errRecv f k e) [] 0 =
      (e, encodeHeader ph ++ srcBytes f 0 k, k + 1) := by
  have hle := specLE_le_getPayloadSize ph h0 h1 h2 h3
  have hkg : k < GetPayloadSize ph := lt_of_lt_of_le hk hle
  simp only [SendPacketHeaderAndForwardPayload, listSend, sendPSize, hv,
    encodeHeader, ne_eq, not_true_eq_false, reduceCtorEq, not_false_eq_true,
    if_true, if_false, ite_false, ite_true]
  rw [forwardLoop_errRecv f k e he (GetPayloadSize ph) 0 _ (by omega)
    (by omega)]
  simp

/-- C3 witness: a 3-byte payload whose source fails at byte 1; the sink
got the 5 header bytes and payload byte 0, and the error is returned. -/
theorem claim3_witness :
    SendPacketHeaderAndForwardPayload
      { t := 128, p := 0, p_size0 := 3, p_size1 := 0, p_size2 := 0,
        p_size3 := 0 }
      listSend (errRecv (fun i => 100 + i) 1 Error.USB) [] 0 =
      (Error.USB, [128, 3, 0, 0, 0, 100], 2) := by
  rw [claim3_error_mid_payload
    { t := 128, p := 0, p_size0 := 3, p_size1 := 0, p_size2 := 0,
      p_size3 := 0 }
    (fun i => 100 + i) 1 Error.USB (by decide) (by decide) (by decide)
    (by decide) (by decide) (by decide) (by decide)]
  decide

/-- C4.  The claim states SetPayloadSize/GetPayloadSize round-trip every
n up to 2^32-1 under the AVR's 16-bit int promotion.  They do not: at
n = 32768 the stored bytes are 00 80 00 00, `p_size[1]<<8` is a negative
16-bit int, and its conversion to uint32_t sign-extends, so GetPayloadSize
returns 4294934528 (0xFFFF8000), not 32768. -/
theorem claim4_payload_size_roundtrip_bug :
    GetPayloadSize (SetPayloadSize phZero 32768) = 4294934528 ∧
    GetPayloadSize (SetPayloadSize phZero 32768) ≠ 32768 := by decide

/-- C5 counterexample.  The claim says a presence-probe request's own
header is fully consumed: the type byte plus its inline byte (flag
clear).  In the code, ReceivePacketHeader returns as soon as the type
byte names REQUEST_AVR_PRESENCE, so for the two-byte probe header
[type, 66] the inline byte 66 is left unconsumed on the microcomputer
transport when the iteration ends. -/
theorem claim5_counterexample :
    (MainLoop listRecv listSend listRecv listSend phZero phZero
      [mkPacketType REQUEST_AVR_PRESENCE false, 66] [] [] []).beebIn =
      [66] ∧
    ([66] : List Nat) ≠ [] := by decide

/-- C5 as amended: when the first byte received from the microcomputer
carries the presence-probe code, the iteration ends with zero bytes sent
on either transport, no endpoint stall, and exactly the type byte
consumed -- the inline byte or length bytes of the probe header are not
read. -/
theorem claim5_presence_probe {ρB σB ρH σH : Type}
    (rcvB : ρB → Error × Nat × ρB) (sndB : Nat → σB → Error × σB)
    (rcvH : ρH → Error × Nat × ρH) (sndH : Nat → σH → Error × σH)
    (request0 response0 : PacketHeader) (bIn bIn1 : ρB) (bOut : σB)
    (hIn : ρH) (hOut : σH) (t : Nat)
    (hrecv : rcvB bIn = (Error.None, t, bIn1))
    (hc : tBitsC t = REQUEST_AVR_PRESENCE) :
    MainLoop rcvB sndB rcvH sndH request0 response0 bIn bOut hIn hOut =
      { beebIn := bIn1, beebOut := bOut, hostIn := hIn, hostOut := hOut,
        stalls := [] } := by
  simp [MainLoop, ReceivePacketHeader, hrecv, hc]

/-- C5 witness: the amended theorem applied to a concrete probe header
followed by one unread inline byte. -/
theorem claim5_witness :
    MainLoop listRecv listSend listRecv listSend phZero phZero
      [mkPacketType REQUEST_AVR_PRESENCE false, 66] [] ([] : List Nat)
      ([] : List Nat) =
      { beebIn := [66], beebOut := [], hostIn := [], hostOut := [],
        stalls := [] } :=
  claim5_presence_probe listRecv listSend listRecv listSend phZero phZero
    [mkPacketType REQUEST_AVR_PRESENCE false, 66] [66] [] [] []
    (mkPacketType REQUEST_AVR_PRESENCE false) (by decide) (by decide)

/-- C6 counterexample.  The claim says a host-link fault during response
forwarding leaves the microcomputer-side transport untouched.  In the
run below the request [2, 9] is forwarded, the host supplies the response
header 0x83 with declared size 2 and one payload byte, then faults; at
that point the microcomputer has already received the response header
bytes and the relayed payload prefix ([131, 2, 0, 0, 0, 7], not []),
while the host-to-device endpoint was stalled exactly once. -/
theorem claim6_counterexample :
    (MainLoop listRecv listSend listRecv listSend phZero phZero
      [2, 9] [] [131, 2, 0, 0, 0, 7] []).beebOut = [131, 2, 0, 0, 0, 7] ∧
    ([131, 2, 0, 0, 0, 7] : List Nat) ≠ [] ∧
    (MainLoop listRecv listSend listRecv listSend phZero phZero
      [2, 9] [] [131, 2, 0, 0, 0, 7] []).stalls =
      [StallAction.hostToDevice] := by decide

/-- C6 as amended: if the forwarding of the host's response to the
microcomputer fails (in particular on a host-link fault while receiving
a payload byte), the iteration ends with the microcomputer-side sink in
exactly the state the partial forwarding produced -- the response header
bytes plus the payload prefix relayed before the fault, nothing else --
and with the host-to-device endpoint stalled exactly once. -/
theorem claim6_partial_forward_stall {ρB σB ρH σH : Type}
    (rcvB : ρB → Error × Nat × ρB) (sndB : Nat → σB → Error × σB)
    (rcvH : ρH → Error × Nat × ρH) (sndH : Nat → σH → Error × σH)
    (request0 response0 request response : PacketHeader)
    (bIn bIn1 bIn2 : ρB) (bOut bOut1 : σB) (hIn hIn1 hIn2 : ρH)
    (hOut hOut1 : σH) (e : Error)
    (hreq : ReceivePacketHeader rcvB true request0 bIn =
      (Error.None, request, bIn1))
    (hp : tBitsC request.t ≠ REQUEST_AVR_PRESENCE)
    (ha : tBitsC request.t ≠ REQUEST_AVR)
    (hfwd1 : SendPacketHeaderAndForwardPayload request sndH rcvB hOut bIn1 =
      (Error.None, hOut1, bIn2))
    (hresp : ReceivePacketHeader rcvH false response0 hIn =
      (Error.None, response, hIn1))
    (hfwd2 : SendPacketHeaderAndForwardPayload response sndB rcvH bOut hIn1 =
      (e, bOut1, hIn2))
    (he : e ≠ Error.None) :
    MainLoop rcvB sndB rcvH sndH request0 response0 bIn bOut hIn hOut =
      { beebIn := bIn2, beebOut := bOut1, hostIn := hIn2, hostOut := hOut1,
        stalls := [StallAction.hostToDevice] } := by
  simp [MainLoop, hreq, hp, ha, hfwd1, hresp, hfwd2, he]

/-- C6 witness: the amended theorem applied to the concrete faulting run
of the counterexample. -/
theorem claim6_witness :
    MainLoop listRecv listSend listRecv listSend phZero phZero
      [2, 9] [] [131, 2, 0, 0, 0, 7] ([] : List Nat) =
      { beebIn := [], beebOut := [131, 2, 0, 0, 0, 7], hostIn := [],
        hostOut := [2, 9], stalls := [StallAction.hostToDevice] } :=
  claim6_partial_forward_stall listRecv listSend listRecv listSend
    phZero phZero
    { t := 2, p := 9, p_size0 := 0, p_size1 := 0, p_size2 := 0,
      p_size3 := 0 }
    { t := 131, p := 0, p_size0 := 2, p_size1 := 0, p_size2 := 0,
      p_size3 := 0 }
    [2, 9] [] [] [] [131, 2, 0, 0, 0, 7] [131, 2, 0, 0, 0, 7] [7] [] []
    [2, 9] Error.USB
    (by decide) (by decide) (by decide) (by decide) (by decide) (by decide)
    (by decide)

/-- C7 counterexample.  The claim says a timeout during the endpoint wait
is surfaced as the Timeout error kind, fatal to the iteration.  In the
code the `do..while` loop retries the wait whenever the result is
Timeout: a lone timeout never returns, and a timeout followed by success
returns success, never Error.USBTimeout. -/
theorem claim7_counterexample :
    WaitUntilEndpointReady [ReadyWait.Timeout] = none ∧
    WaitUntilEndpointReady [ReadyWait.Timeout, ReadyWait.NoError] =
      some Error.None ∧
    some Error.None ≠ some Error.USBTimeout := by decide

/-- C7 as amended: the terminal conditions stalled, disconnected and
suspended are each surfaced as their own distinct error kind after any
number of timeout retries; a timeout result itself is never surfaced --
the wait simply re-enters, and no input sequence makes
WaitUntilEndpointReady return Error.USBTimeout. -/
theorem claim7_endpoint_error_kinds :
    (∀ n : Nat, WaitUntilEndpointReady
      (List.replicate n ReadyWait.Timeout) = none) ∧
    (∀ (n : Nat) (w : ReadyWait) (ws : List ReadyWait),
      w ≠ ReadyWait.Timeout →
      WaitUntilEndpointReady (List.replicate n ReadyWait.Timeout ++ w :: ws) =
        some (ReadyWaitError w)) ∧
    ReadyWaitError ReadyWait.EndpointStalled = Error.USBEndpointStalled ∧
    ReadyWaitError ReadyWait.DeviceDisconnected =
      Error.USBDeviceDisconnected ∧
    ReadyWaitError ReadyWait.BusSuspended = Error.USBBusSuspended ∧
    (∀ ws : List ReadyWait,
      WaitUntilEndpointReady ws ≠ some Error.USBTimeout) := by
  refine ⟨?_, ?_, by decide, by decide, by decide, ?_⟩
  · intro n
    induction n with
    | zero => rfl
    | succ n ih => simpa [List.replicate, WaitUntilEndpointReady] using ih
  · intro n w ws hw
    induction n with
    | zero => simp [WaitUntilEndpointReady, hw]
    | succ n ih => simpa [List.replicate, WaitUntilEndpointReady] using ih
  · intro ws
    induction ws with
    | nil => simp [WaitUntilEndpointReady]
    | cons w ws ih =>
      by_cases hw : w = ReadyWait.Timeout
      · simpa [WaitUntilEndpointReady, hw] using ih
      · cases w <;> simp_all [WaitUntilEndpointReady, ReadyWaitError]

/-- C7 witness: the amended theorem applied to two timeouts followed by a
bus-suspended condition. -/
theorem claim7_witness :
    WaitUntilEndpointReady
      (List.replicate 2 ReadyWait.Timeout ++
        ReadyWait.BusSuspended :: []) = some Error.USBBusSuspended :=
  claim7_endpoint_error_kinds.2.1 2 ReadyWait.BusSuspended [] (by decide)

theorem forwardLoop_split3 {σ ρ : Type} (snd : Nat → σ → Error × σ)
    (rcv : ρ → Error × Nat × ρ) (a b n : Nat) (hab : a ≤ b) (hbn : b ≤ n)
    (s : σ) (r : ρ) :
    (let o1 := forwardLoop snd rcv a s r
     if o1.1 ≠ Error.None then o1 else
     let o2 := forwardLoop snd rcv (b - a) o1.2.1 o1.2.2
     if o2.1 ≠ Error.None then o2 else
     forwardLoop snd rcv (n - b) o2.2.1 o2.2.2) =
    forwardLoop snd rcv n s r := by
  have hn : n = a + ((b - a) + (n - b)) := by omega
  conv_rhs => rw [hn, forwardLoop_add]
  by_cases h1 : (forwardLoop snd rcv a s r).1 = Error.None
  · simp only [h1, ne_eq, not_true_eq_false, if_false, ite_false]
    rw [forwardLoop_add]
  · simp [h1]

/-- C8.  A REQUEST_AVR meta-request whose header has the variable-size
flag set and a declared payload size other than 1 is answered, on the
microcomputer transport only, with a synthesized error packet: a
variable-sized RESPONSE_ERROR header declaring 3 + |message| payload
bytes, followed by the payload 0x00, code 255, the "Bad REQUEST_AVR
payload size" message bytes, and the 0 terminator.  The source state `r`
is returned untouched. -/
theorem claim8_bad_size_error_packet {ρ : Type} (request : PacketHeader)
    (rcv : ρ → Error × Nat × ρ) (r : ρ)
    (hv : tBitsV request.t = true) (hs : GetPayloadSize request ≠ 1) :
    HandleRequestAVR request listSend rcv [] r =
      (Error.None,
       mkPacketType RESPONSE_ERROR true ::
         [3 + badPayloadSizeMsg.length, 0, 0, 0] ++ [0, 255] ++
         badPayloadSizeMsg ++ [0], r) := by
  have hse : SendErrorToBeeb 255 badPayloadSizeMsg listSend
      ([] : List Nat) =
      (Error.None,
       mkPacketType RESPONSE_ERROR true ::
         [3 + badPayloadSizeMsg.length, 0, 0, 0] ++ [0, 255] ++
         badPayloadSizeMsg ++ [0]) := by decide
  simp [HandleRequestAVR, hv, hs, hse]

/-- C8 witness: a REQUEST_AVR request header declaring a 2-byte variable
payload provokes the concrete error packet. -/
theorem claim8_witness :
    HandleRequestAVR
      { t := 129, p := 0, p_size0 := 2, p_size1 := 0, p_size2 := 0,
        p_size3 := 0 }
      listSend listRecv [] [7] =
      (Error.None,
       mkPacketType RESPONSE_ERROR true ::
         [3 + badPayloadSizeMsg.length, 0, 0, 0] ++ [0, 255] ++
         badPayloadSizeMsg ++ [0], [7]) :=
  claim8_bad_size_error_packet
    { t := 129, p := 0, p_size0 := 2, p_size1 := 0, p_size2 := 0,
      p_size3 := 0 }
    listRecv [7] (by decide) (by decide)

/-- C9.  For every request header, response header and transport pair,
the generated .inl body of SendPacketHeaderAndForwardPayload -- whose
verbose mode splits the relay into first window, elided middle and last
window around the 50-byte dump threshold -- performs exactly the same
transport operations with the same outcome as the plain single-loop
engine, whether verbose tracing is active or not and whatever the
payload size; the elision windowing gates only diagnostic text. -/
theorem claim9_elision_preserves_relay {σ ρ : Type} (verbose : Bool)
    (response_ph : PacketHeader) (snd : Nat → σ → Error × σ)
    (rcv : ρ → Error × Nat × ρ) (s : σ) (r : ρ) :
    SendPacketHeaderAndForwardPayloadInl verbose response_ph snd rcv s r =
      SendPacketHeaderAndForwardPayload response_ph snd rcv s r := by
  unfold SendPacketHeaderAndForwardPayloadInl SendPacketHeaderAndForwardPayload
  by_cases h0 : (snd response_ph.t s).1 = Error.None
  · simp only [h0, ne_eq, not_true_eq_false, if_false, ite_false]
    by_cases hv : tBitsV response_ph.t
    · simp only [hv, if_true, ite_true]
      by_cases h1 : (sendPSize snd response_ph (snd response_ph.t s).2).1 =
          Error.None
      · simp only [h1, ne_eq, not_true_eq_false, if_false, ite_false]
        cases verbose with
        | false => simp
        | true =>
          simp only [Bool.not_true, if_false, ite_false]
          by_cases hp : GetPayloadSize response_ph ≤ 50
          · simp only [hp, if_true, ite_true]
            exact forwardLoop_split3 snd rcv (GetPayloadSize response_ph)
              (GetPayloadSize response_ph) (GetPayloadSize response_ph)
              (by omega) (by omega) _ r
          · simp only [hp, if_false, ite_false]
            exact forwardLoop_split3 snd rcv 25
              (GetPayloadSize response_ph - 25) (GetPayloadSize response_ph)
              (by omega) (by omega) _ r
      · simp [h1]
    · simp [hv]
  · simp [h0]

/-- C10.  When a REQUEST_AVR meta-request declares a variable payload of
size other than 1, HandleRequestAVR answers with the synthesized error
packet without requesting a single byte from the microcomputer source:
the result is exactly SendErrorToBeeb's, and the source state `r` comes
back unchanged -- the declared request payload is left unconsumed. -/
theorem claim10_request_payload_unconsumed {σ ρ : Type}
    (request : PacketHeader) (snd : Nat → σ → Error × σ)
    (rcv : ρ → Error × Nat × ρ) (s : σ) (r : ρ)
    (hv : tBitsV request.t = true) (hs : GetPayloadSize request ≠ 1) :
    HandleRequestAVR request snd rcv s r =
      ((SendErrorToBeeb 255 badPayloadSizeMsg snd s).1,
       (SendErrorToBeeb 255 badPayloadSizeMsg snd s).2, r) := by
  simp [HandleRequestAVR, hv, hs]

/-- C10 witness: a concrete bad-size REQUEST_AVR header; the source list
[9] is returned untouched. -/
theorem claim10_witness :
    HandleRequestAVR
      { t := 129, p := 0, p_size0 := 5, p_size1 := 0, p_size2 := 0,
        p_size3 := 0 }
      listSend listRecv [] [9] =
      ((SendErrorToBeeb 255 badPayloadSizeMsg listSend []).1,
       (SendErrorToBeeb 255 badPayloadSizeMsg listSend []).2, [9]) :=
  claim10_request_payload_unconsumed
    { t := 129, p := 0, p_size0 := 5, p_size1 := 0, p_size2 := 0,
      p_size3 := 0 }
    listSend listRecv [] [9] (by decide) (by decide)
